import Mathlib

/-!
Verification development for `simpleARDIY.cpp`, a single-marker AR demo
built on ARToolKit.  The per-frame loop (`mainLoop`), the animation step
(`DrawObjUpdate`), the keyboard handler (`Keyboard`), the draw step
(`DrawObj` / `Display`) and the teardown sequence (`cleanup`) are embedded
shallowly below.  External collaborators (camera, detector internals, pose
solver, JPEG writer, GL) appear as oracle inputs to each tick.

Machine floats (`float` / `ARdouble`) are modelled by `ℚ`: every arithmetic
operation the embedded code performs (addition, multiplication by the
constants 45, 0.001, 0.01, comparison, subtraction of 360) is modelled
exactly.
-/

/-- One entry of `gARHandle->markerInfo`: a detector hypothesis with its
assigned identity (`id`) and confidence (`cf`).  The image-plane corners are
not inspected by the loop itself; they travel inside the record to the pose
solver oracle. -/
structure MarkerInfo where
  id : Int
  cf : ℚ
deriving DecidableEq, Repr

/-- The 3×4 `gPatt_trans` transform written by `arGetTransMatSquare`,
modelled as its list of entries. -/
structure Pose where
  entries : List ℚ
deriving DecidableEq, Repr

/-- `VIEW_SCALEFACTOR` (line 42). -/
def VIEW_SCALEFACTOR : ℚ := 1

/-- `VIEW_DISTANCE_MIN` (line 43): near clip. -/
def VIEW_DISTANCE_MIN : ℚ := 40

/-- `VIEW_DISTANCE_MAX` (line 44): far clip. -/
def VIEW_DISTANCE_MAX : ℚ := 10000

/-- `static const float markerSize = 40.0f;` (line 83). -/
def markerSize : ℚ := 40

/-- `static ARdouble gPatt_width = 80.0;` (line 68): the marker edge length
handed to the pose solver `arGetTransMatSquare`. -/
def gPatt_width : ℚ := 80

/-- The argument of `glmScale(gObj, 1.5*markerSize)` in `main` (line 127):
the uniform scale applied to the unit-normalised mesh. -/
def glmScaleArg : ℚ := 3/2 * markerSize

/-- The modelview operations `DrawObj` (lines 191-199) can emit. -/
inductive GLOp
  | pushMatrix
  | rotatef (angle x y z : ℚ)
  | translatef (x y z : ℚ)
  | drawMesh
  | popMatrix
deriving DecidableEq, Repr

/-- `DrawObj` (lines 191-199): push, rotate by `gDrawRotateAngle` about Z,
translate by `markerSize / 2.0` along Z, draw the mesh, pop. -/
def drawObjOps (gDrawRotateAngle : ℚ) : List GLOp :=
  [GLOp.pushMatrix,
   GLOp.rotatef gDrawRotateAngle 0 0 1,
   GLOp.translatef 0 0 (markerSize / 2),
   GLOp.drawMesh,
   GLOp.popMatrix]

/-- The mesh-drawing part of `Display` (lines 506-520): `DrawObj` runs
exactly when `gPatt_found` is set. -/
def displayMeshOps (gPatt_found : Bool) (gDrawRotateAngle : ℚ) : List GLOp :=
  if gPatt_found then drawObjOps gDrawRotateAngle else []

/-- `AR_LABELING_THRESH_MODE` values cycled by key `a` (lines 341-352). -/
inductive ThreshMode
  | manual | autoMedian | autoOtsu | autoAdaptive
deriving DecidableEq, Repr

/-- `AR_IMAGE_PROC_*` values cycled by key `x` (lines 315-324). -/
inductive ImageProcMode
  | frameImage | fieldImage
deriving DecidableEq, Repr

/-- `arglDrawMode` values (key `c`, lines 325-340). -/
inductive DrawMode
  | drawPixels | textureMapping
deriving DecidableEq, Repr

/-- `arglTexmapMode` values (key `c`, lines 325-340). -/
inductive TexmapMode
  | fullImage | halfImage
deriving DecidableEq, Repr

/-- The process-wide mutable state of the demo: the file-scope globals of
`simpleARDIY.cpp` together with the `static` locals of `mainLoop` and the
detector/renderer settings mutated through getter/setter pairs. -/
structure GState where
  /-- `static int ms_prev` in `mainLoop` (line 395). -/
  msPrev : Int
  /-- `gDrawRotateAngle` (line 79). -/
  rotateAngle : ℚ
  /-- `gDrawRotate` (line 78). -/
  drawRotate : Bool
  /-- `gPatt_id` (line 71): identity of the single registered pattern. -/
  pattId : Int
  /-- `gPatt_found` (line 70). -/
  pattFound : Bool
  /-- `gPatt_trans` (line 69). -/
  pattTrans : Pose
  /-- `gARTImageSavePlease` (line 59). -/
  imageSavePlease : Bool
  /-- `static int imageNumber` in `mainLoop` (line 394). -/
  imageNumber : Nat
  /-- `gCallCountMarkerDetect` (line 64). -/
  callCountMarkerDetect : Int
  /-- `gShowHelp` (line 76). -/
  showHelp : Int
  /-- `gShowMode` (line 77). -/
  showMode : Bool
  /-- labeling threshold held by `gARHandle` (`arGet/SetLabelingThresh`). -/
  thresh : Int
  /-- labeling threshold mode held by `gARHandle`. -/
  threshMode : ThreshMode
  /-- image processing mode held by `gARHandle`. -/
  imageProcMode : ImageProcMode
  /-- debug mode held by `gARHandle` (key `d`). -/
  debugMode : Bool
  /-- `arglDrawMode` held by `gArglSettings`. -/
  drawMode : DrawMode
  /-- `arglTexmapMode` held by `gArglSettings`. -/
  texmapMode : TexmapMode
deriving DecidableEq, Repr

/-- The new rotation angle computed by `DrawObjUpdate` (lines 201-207):
when `gDrawRotate`, add `timeDelta * 45.0f` and subtract 360 once if the
result exceeds `360.0f`. -/
def updateAngle (gDrawRotate : Bool) (angle timeDelta : ℚ) : ℚ :=
  if gDrawRotate then
    let a := angle + timeDelta * 45
    if a > 360 then a - 360 else a
  else angle

/-- `DrawObjUpdate` (lines 201-207) as a state transformer. -/
def drawObjUpdate (timeDelta : ℚ) (s : GState) : GState :=
  { s with rotateAngle := updateAngle s.drawRotate s.rotateAngle timeDelta }

/-- Effective draw mode as read back by `printMode` (lines 713-717):
`GL_DRAW_PIXELS` when `arglDrawMode` is `AR_DRAW_BY_GL_DRAW_PIXELS`,
otherwise full- or half-image texture mapping per `arglTexmapMode`. -/
inductive EffDrawMode
  | pixels | texFull | texHalf
deriving DecidableEq, Repr

/-- Readout of the draw-mode setting, following `printMode`. -/
def effDrawMode (s : GState) : EffDrawMode :=
  match s.drawMode with
  | DrawMode.drawPixels => EffDrawMode.pixels
  | DrawMode.textureMapping =>
    match s.texmapMode with
    | TexmapMode.fullImage => EffDrawMode.texFull
    | TexmapMode.halfImage => EffDrawMode.texHalf

/-- `Keyboard` (lines 300-390) restricted to the keys that mutate state.
The quit keys (escape, `q`, `Q`) run `cleanup()` and `exit(0)` and are kept
out of this pure transformer; every other `case` arm of the `switch` is
mirrored, followed by the shared `threshChange` clamp (lines 381-388). -/
def keyboard (key : Char) (s : GState) : GState :=
  let threshChange : Int :=
    if key = '-' then -5
    else if key = '+' ∨ key = '=' then 5
    else 0
  let s :=
    if key = Char.ofNat 32 then      -- the space key
      { s with drawRotate := !s.drawRotate }
    else if key = 'X' ∨ key = 'x' then
      { s with imageProcMode :=
          match s.imageProcMode with
          | ImageProcMode.frameImage => ImageProcMode.fieldImage
          | ImageProcMode.fieldImage => ImageProcMode.frameImage }
    else if key = 'C' ∨ key = 'c' then
      let s :=
        match s.drawMode with
        | DrawMode.drawPixels =>
          { s with drawMode := DrawMode.textureMapping,
                   texmapMode := TexmapMode.fullImage }
        | DrawMode.textureMapping =>
          match s.texmapMode with
          | TexmapMode.fullImage => { s with texmapMode := TexmapMode.halfImage }
          | TexmapMode.halfImage => { s with drawMode := DrawMode.drawPixels }
      { s with callCountMarkerDetect := 0 }
    else if key = 'a' ∨ key = 'A' then
      { s with threshMode :=
          match s.threshMode with
          | ThreshMode.manual => ThreshMode.autoMedian
          | ThreshMode.autoMedian => ThreshMode.autoOtsu
          | ThreshMode.autoOtsu => ThreshMode.autoAdaptive
          | ThreshMode.autoAdaptive => ThreshMode.manual }
    else if key = 'D' ∨ key = 'd' then
      { s with debugMode := !s.debugMode }
    else if key = 's' ∨ key = 'S' then
      if !s.imageSavePlease then { s with imageSavePlease := true } else s
    else if key = '?' ∨ key = '/' then
      let h := s.showHelp + 1
      { s with showHelp := if h > 1 then 0 else h }
    else if key = 'm' ∨ key = 'M' then
      { s with showMode := !s.showMode }
    else s
  if threshChange ≠ 0 then
    let t := s.thresh + threshChange
    let t := if t < 0 then 0 else t
    let t := if t > 255 then 255 else t
    { s with thresh := t }
  else s

/-- One iteration of the selection loop body (lines 435-440): `k` holds the
index and record of the best hypothesis so far (`none` for `k == -1`),
`j`/`m` the current index and hypothesis; replacement needs `id` equality
and, when `k` is set, confidence strictly greater than the incumbent. -/
def selStep (pattId : Int) (k : Option (Nat × MarkerInfo)) (j : Nat)
    (m : MarkerInfo) : Option (Nat × MarkerInfo) :=
  if m.id = pattId then
    match k with
    | none => some (j, m)
    | some (ki, mk) => if mk.cf < m.cf then some (j, m) else some (ki, mk)
  else k

/-- The selection loop of `mainLoop` (lines 434-440), running over the
remaining hypotheses with `j` the absolute index of the head. -/
def selectFrom (pattId : Int) :
    List MarkerInfo → Nat → Option (Nat × MarkerInfo) → Option (Nat × MarkerInfo)
  | [], _, k => k
  | m :: rest, j, k => selectFrom pattId rest (j + 1) (selStep pattId k j m)

/-- Best-hypothesis selection over the whole `markerInfo` array. -/
def selectBest (markers : List MarkerInfo) (pattId : Int) :
    Option (Nat × MarkerInfo) :=
  selectFrom pattId markers 0 none

/-- `%04d`-style rendering of the capture counter. -/
def zeroPad4 (n : Nat) : String :=
  let s := Nat.repr n
  String.mk (List.replicate (4 - s.length) '0') ++ s

/-- The capture filename built by `sprintf(imageNumberText, "image-%04d.jpg",
imageNumber++)` (line 418). -/
def imageFileName (n : Nat) : String :=
  "image-" ++ zeroPad4 n ++ ".jpg"

/-- The JPEG quality argument of `arVideoSaveImageJPEG` (line 419). -/
def jpegQuality : Nat := 75

/-- Per-tick inputs from the external collaborators: the GLUT millisecond
clock, the optional frame from `arVideoGetImage`, the detector outcome
(`none` models `arDetectMarker < 0`), the pose solver
(`arGetTransMatSquare`, taking a hypothesis and the marker width and
returning the transform and the reprojection residual `err`), and whether
the JPEG save succeeds. -/
structure TickInput where
  ms : Int
  frame : Option Unit
  detect : Option (List MarkerInfo)
  solve : MarkerInfo → ℚ → Pose × ℚ
  saveOk : Bool

/-- Observable side effects of one `mainLoop` call. -/
structure TickEffects where
  /-- `glutPostRedisplay()` was called (line 452). -/
  redraw : Bool
  /-- `arVideoSaveImageJPEG` was called: filename, quality, success. -/
  saved : Option (String × Nat × Bool)
  /-- `arGetTransMatSquare` was called: the hypothesis and the width. -/
  poseSolved : Option (MarkerInfo × ℚ)
  /-- `exit` was called with this code. -/
  exited : Option Int
  /-- `cleanup()` ran before returning / exiting. -/
  cleanupCalled : Bool
deriving Repr

/-- No side effects. -/
def noEffects : TickEffects :=
  { redraw := false, saved := none, poseSolved := none, exited := none,
    cleanupCalled := false }

/-- The part of `mainLoop` (lines 413-453) that runs once a frame has been
grabbed: optional JPEG capture (lines 416-423), FPS counter increment
(line 425), `arDetectMarker` — a negative return is `exit(-1)` with no
cleanup (lines 428-430) —, best-hypothesis selection (lines 432-440), pose
solve / `gPatt_found` update (lines 442-449), and `glutPostRedisplay`
(line 452).  `s1` is the state after the rate gate and `DrawObjUpdate`. -/
def tickFrameBody (inp : TickInput) (s1 : GState) : GState × TickEffects :=
  let savedEv : Option (String × Nat × Bool) :=
    if s1.imageSavePlease then
      some (imageFileName s1.imageNumber, jpegQuality, inp.saveOk)
    else none
  let s2 :=
    if s1.imageSavePlease then
      { s1 with imageNumber := s1.imageNumber + 1, imageSavePlease := false }
    else s1
  let s3 := { s2 with callCountMarkerDetect := s2.callCountMarkerDetect + 1 }
  match inp.detect with
  | none =>
    (s3, { noEffects with saved := savedEv, exited := some (-1) })
  | some markers =>
    match selectBest markers s3.pattId with
    | some (_, m) =>
      ({ s3 with pattTrans := (inp.solve m gPatt_width).1, pattFound := true },
       { noEffects with saved := savedEv,
                        poseSolved := some (m, gPatt_width), redraw := true })
    | none =>
      ({ s3 with pattFound := false },
       { noEffects with saved := savedEv, redraw := true })

/-- `mainLoop` after an accepted rate gate (lines 407-453): record the tick
time in `ms_prev`, run `DrawObjUpdate`, then grab a frame — returning with
no further work when `arVideoGetImage()` is `NULL` (line 413). -/
def tickBody (inp : TickInput) (s : GState) : GState × TickEffects :=
  let s_elapsed : ℚ := ((inp.ms - s.msPrev : Int) : ℚ) * (1/1000)
  let s1 := drawObjUpdate s_elapsed { s with msPrev := inp.ms }
  match inp.frame with
  | none => (s1, noEffects)
  | some _ => tickFrameBody inp s1

/-- `mainLoop` (lines 392-454): the 100 Hz rate gate (`s_elapsed < 0.01f`
returns with no work, lines 404-406), then `tickBody`. -/
def tick (inp : TickInput) (s : GState) : GState × TickEffects :=
  let s_elapsed : ℚ := ((inp.ms - s.msPrev : Int) : ℚ) * (1/1000)
  if s_elapsed < 1/100 then (s, noEffects) else tickBody inp s

/-- The teardown actions of `cleanup` (lines 560-577). -/
inductive TeardownStep
  | destroyRenderer      -- arglCleanup
  | detachPatternTable   -- arPattDetach
  | deletePatternTable   -- arPattDeleteHandle
  | stopCapture          -- arVideoCapStop
  | destroyPoseSolver    -- ar3DDeleteHandle
  | destroyDetectorState -- arDeleteHandle
  | destroyIntrinsics    -- arParamLTFree
  | closeFrameSource     -- arVideoClose
  | deleteMesh           -- glmDelete
deriving DecidableEq, Repr

/-- The sequence of actions `cleanup` performs, in source order; the mesh is
deleted only if `gObj != NULL`. -/
def cleanupSequence (meshPresent : Bool) : List TeardownStep :=
  [TeardownStep.destroyRenderer,
   TeardownStep.detachPatternTable,
   TeardownStep.deletePatternTable,
   TeardownStep.stopCapture,
   TeardownStep.destroyPoseSolver,
   TeardownStep.destroyDetectorState,
   TeardownStep.destroyIntrinsics,
   TeardownStep.closeFrameSource]
  ++ (if meshPresent then [TeardownStep.deleteMesh] else [])

/-- A concrete state carrying the source's initial values of the loop
globals (lines 59, 64, 70, 76-79, 394-395), used for evaluation. -/
def gInit : GState :=
  { msPrev := 0, rotateAngle := 0, drawRotate := true, pattId := 0,
    pattFound := false, pattTrans := Pose.mk [], imageSavePlease := false,
    imageNumber := 0, callCountMarkerDetect := 0, showHelp := 1,
    showMode := true, thresh := 100, threshMode := ThreshMode.manual,
    imageProcMode := ImageProcMode.frameImage, debugMode := false,
    drawMode := DrawMode.textureMapping, texmapMode := TexmapMode.fullImage }

theorem selectFrom_snoc (pid : Int) (m : MarkerInfo) :
    ∀ (l : List MarkerInfo) (j : Nat) (k : Option (Nat × MarkerInfo)),
    selectFrom pid (l ++ [m]) j k =
      selStep pid (selectFrom pid l j k) (j + l.length) m := by
  intro l
  induction l with
  | nil => intro j k; simp [selectFrom]
  | cons a l ih =>
    intro j k
    show selectFrom pid (l ++ [m]) (j + 1) (selStep pid k j a) = _
    rw [ih]
    simp [selectFrom]
    ring_nf

/-- Full characterisation of the selection loop of `mainLoop`: it returns
`none` exactly when no hypothesis matches `pid`, and otherwise an index and
hypothesis that match `pid`, with confidence at least every matching
hypothesis and strictly above every earlier matching hypothesis. -/
theorem selectBest_spec (pid : Int) (l : List MarkerInfo) :
    (selectBest l pid = none ↔ ∀ m ∈ l, m.id ≠ pid) ∧
    (∀ km : Nat × MarkerInfo, selectBest l pid = some km →
      l[km.1]? = some km.2 ∧ km.2.id = pid ∧
      (∀ (d : Nat) (md : MarkerInfo),
        l[d]? = some md → md.id = pid → md.cf ≤ km.2.cf) ∧
      (∀ (d : Nat) (md : MarkerInfo),
        d < km.1 → l[d]? = some md → md.id = pid → md.cf < km.2.cf)) := by
  induction l using List.reverseRecOn with
  | nil =>
    constructor
    · simp [selectBest, selectFrom]
    · intro km h; simp [selectBest, selectFrom] at h
  | append_singleton l m ih =>
    have hsnoc : selectBest (l ++ [m]) pid =
        selStep pid (selectBest l pid) l.length m := by
      show selectFrom pid (l ++ [m]) 0 none = _
      rw [selectFrom_snoc]
      simp [selectBest]
    rcases hprev : selectBest l pid with _ | ⟨ki, mk⟩
    · -- no matching hypothesis in the prefix `l`
      have hnone : ∀ m' ∈ l, m'.id ≠ pid := (ih.1).mp hprev
      rw [hprev] at hsnoc
      by_cases hid : m.id = pid
      · -- the new element is the unique match
        have hres : selectBest (l ++ [m]) pid = some (l.length, m) := by
          rw [hsnoc]; simp [selStep, hid]
        constructor
        · rw [hres]
          simp only [false_iff, reduceCtorEq]
          intro hall
          exact hall m (by simp) hid
        · intro km hkm
          rw [hres] at hkm
          cases hkm
          refine ⟨List.getElem?_concat_length l m, hid, ?_, ?_⟩
          · intro d md hd hmd
            rcases Nat.lt_trichotomy d l.length with hlt | heq | hgt
            · rw [List.getElem?_append_left hlt] at hd
              exact absurd hmd (hnone md (List.getElem?_mem hd))
            · subst heq
              rw [List.getElem?_concat_length] at hd
              cases hd; exact le_refl _
            · have : (l ++ [m])[d]? = none :=
                List.getElem?_len_le (by simp; omega)
              rw [this] at hd; cases hd
          · intro d md hdlt hd hmd
            rw [List.getElem?_append_left hdlt] at hd
            exact absurd hmd (hnone md (List.getElem?_mem hd))
      · -- still no match at all
        have hres : selectBest (l ++ [m]) pid = none := by
          rw [hsnoc]; simp [selStep, hid]
        constructor
        · rw [hres]
          simp only [true_iff]
          intro m' hm'
          rcases List.mem_append.mp hm' with h | h
          · exact hnone m' h
          · simp at h; subst h; exact hid
        · intro km hkm; rw [hres] at hkm; cases hkm
    · -- the prefix already has a best matching hypothesis (ki, mk)
      obtain ⟨hki, hkid, hle, hlt⟩ := ih.2 (ki, mk) hprev
      have hkilen : ki < l.length := by
        rcases List.getElem?_eq_some.mp hki with ⟨h, _⟩; exact h
      rw [hprev] at hsnoc
      have hmkmem : mk ∈ l := List.getElem?_mem hki
      have hnotall : ¬ (∀ m' ∈ l ++ [m], m'.id ≠ pid) := by
        intro hall
        exact hall mk (List.mem_append.mpr (Or.inl hmkmem)) hkid
      by_cases hid : m.id = pid
      · by_cases hcf : mk.cf < m.cf
        · -- the new element strictly beats the incumbent
          have hres : selectBest (l ++ [m]) pid = some (l.length, m) := by
            rw [hsnoc]; simp [selStep, hid, hcf]
          constructor
          · rw [hres]; simp only [false_iff, reduceCtorEq]; exact hnotall
          · intro km hkm
            rw [hres] at hkm
            cases hkm
            refine ⟨List.getElem?_concat_length l m, hid, ?_, ?_⟩
            · intro d md hd hmd
              rcases Nat.lt_trichotomy d l.length with hdlt | heq | hgt
              · rw [List.getElem?_append_left hdlt] at hd
                exact le_of_lt (lt_of_le_of_lt (hle d md hd hmd) hcf)
              · subst heq
                rw [List.getElem?_concat_length] at hd
                cases hd; exact le_refl _
              · have : (l ++ [m])[d]? = none :=
                  List.getElem?_len_le (by simp; omega)
                rw [this] at hd; cases hd
            · intro d md hdlt hd hmd
              rw [List.getElem?_append_left hdlt] at hd
              exact lt_of_le_of_lt (hle d md hd hmd) hcf
        · -- the incumbent is kept
          have hres : selectBest (l ++ [m]) pid = some (ki, mk) := by
            rw [hsnoc]; simp [selStep, hid, hcf]
          constructor
          · rw [hres]; simp only [false_iff, reduceCtorEq]; exact hnotall
          · intro km hkm
            rw [hres] at hkm
            cases hkm
            refine ⟨by rw [List.getElem?_append_left hkilen]; exact hki, hkid, ?_, ?_⟩
            · intro d md hd hmd
              rcases Nat.lt_trichotomy d l.length with hdlt | heq | hgt
              · rw [List.getElem?_append_left hdlt] at hd
                exact hle d md hd hmd
              · subst heq
                rw [List.getElem?_concat_length] at hd
                cases hd; exact le_of_not_lt hcf
              · have : (l ++ [m])[d]? = none :=
                  List.getElem?_len_le (by simp; omega)
                rw [this] at hd; cases hd
            · intro d md hdlt hd hmd
              have hdl : d < l.length := lt_trans hdlt hkilen
              rw [List.getElem?_append_left hdl] at hd
              exact hlt d md hdlt hd hmd
      · -- the new element does not match: incumbent kept
        have hres : selectBest (l ++ [m]) pid = some (ki, mk) := by
          rw [hsnoc]; simp [selStep, hid]
        constructor
        · rw [hres]; simp only [false_iff, reduceCtorEq]; exact hnotall
        · intro km hkm
          rw [hres] at hkm
          cases hkm
          refine ⟨by rw [List.getElem?_append_left hkilen]; exact hki, hkid, ?_, ?_⟩
          · intro d md hd hmd
            rcases Nat.lt_trichotomy d l.length with hdlt | heq | hgt
            · rw [List.getElem?_append_left hdlt] at hd
              exact hle d md hd hmd
            · subst heq
              rw [List.getElem?_concat_length] at hd
              cases hd; exact absurd hmd hid
            · have : (l ++ [m])[d]? = none :=
                List.getElem?_len_le (by simp; omega)
              rw [this] at hd; cases hd
          · intro d md hdlt hd hmd
            have hdl : d < l.length := lt_trans hdlt hkilen
            rw [List.getElem?_append_left hdl] at hd
            exact hlt d md hdlt hd hmd

/-- A trivial pose solver oracle used for concrete evaluation. -/
def solveZero : MarkerInfo → ℚ → Pose × ℚ :=
  fun _ _ => (Pose.mk [1, 0, 0, 0, 0, 1, 0, 0, 0, 0, 1, 0], 0)

/-- A pose solver oracle reporting a huge reprojection residual. -/
def solveBad : MarkerInfo → ℚ → Pose × ℚ :=
  fun _ _ => (Pose.mk [1, 0, 0, 0, 0, 1, 0, 0, 0, 0, 1, 0], 1000000)

/-- Concrete tick input: clock at 1000 ms, a frame, two hypotheses with
identity 0 and confidences 0.4 and 0.7. -/
def inTwoHyp : TickInput :=
  { ms := 1000, frame := some (),
    detect := some [MarkerInfo.mk 0 (2/5), MarkerInfo.mk 0 (7/10)],
    solve := solveZero, saveOk := true }

/-- Concrete tick input: one matching hypothesis; the solver reports a bad
residual. -/
def inBadResidual : TickInput :=
  { ms := 1000, frame := some (), detect := some [MarkerInfo.mk 0 1],
    solve := solveBad, saveOk := true }

/-- Concrete tick input: clock at 5 ms (gated against `gInit`). -/
def inGated : TickInput :=
  { ms := 5, frame := some (), detect := some [], solve := solveZero,
    saveOk := true }

/-- Concrete tick input: clock at 1005 ms (gated 5 ms after a tick at
1000 ms). -/
def inGated2 : TickInput :=
  { ms := 1005, frame := some (), detect := some [], solve := solveZero,
    saveOk := true }

/-- Concrete tick input: clock at 1000 ms, no frame available. -/
def inNoFrame : TickInput :=
  { ms := 1000, frame := none, detect := none, solve := solveZero,
    saveOk := true }

/-- Concrete tick input: clock at 20000 ms, no frame (a tick 20 s after the
previous accepted one, as after the window was hidden). -/
def inLate : TickInput :=
  { ms := 20000, frame := none, detect := none, solve := solveZero,
    saveOk := true }

/-- Concrete tick input: a frame with a pending capture request and an empty
detection result. -/
def inCapture : TickInput :=
  { ms := 1000, frame := some (), detect := some [], solve := solveZero,
    saveOk := true }

/-- Concrete tick input: a frame, then the detector fails internally
(`arDetectMarker < 0`). -/
def inDetectFail : TickInput :=
  { ms := 1000, frame := some (), detect := none, solve := solveZero,
    saveOk := true }

/-- The initial state with a pending capture request (`s` was pressed). -/
def gCap : GState := { gInit with imageSavePlease := true }

/-- The initial state with the manual threshold at 253. -/
def gTh253 : GState := { gInit with thresh := 253 }

/-- The initial state with the manual threshold at 255. -/
def gTh255 : GState := { gInit with thresh := 255 }

/-- The initial state with the manual threshold at 0. -/
def gTh0 : GState := { gInit with thresh := 0 }

/-- The initial state with rotation disabled (space pressed once). -/
def gNoRot : GState := { gInit with drawRotate := false }

example : selectBest [MarkerInfo.mk 0 (2/5), MarkerInfo.mk 0 (7/10)] 0 =
    some (1, MarkerInfo.mk 0 (7/10)) := by
  norm_num [selectBest, selectFrom, selStep]

/-- The rate-gate comparison `(ms - ms_prev) * 0.001f < 0.01f` holds exactly
when fewer than 10 ms have elapsed. -/
theorem gate_lt_iff (d : Int) : ((d : ℚ) * (1/1000) < 1/100) ↔ d < 10 := by
  rw [show ((1:ℚ)/100) = 10 * (1/1000) by norm_num,
      mul_lt_mul_right (by norm_num : (0:ℚ) < 1/1000)]
  exact_mod_cast Iff.rfl

theorem tick_gated (inp : TickInput) (s : GState)
    (h : inp.ms - s.msPrev < 10) : tick inp s = (s, noEffects) := by
  unfold tick
  rw [if_pos ((gate_lt_iff _).mpr h)]

theorem tick_accepted (inp : TickInput) (s : GState)
    (h : 10 ≤ inp.ms - s.msPrev) : tick inp s = tickBody inp s := by
  unfold tick
  rw [if_neg]
  rw [gate_lt_iff]
  omega

/-- After an accepted tick, `ms_prev` holds the tick's clock reading, no
matter which later branch ran. -/
theorem tick_msPrev_of_accepted (inp : TickInput) (s : GState)
    (h : 10 ≤ inp.ms - s.msPrev) : (tick inp s).1.msPrev = inp.ms := by
  rw [tick_accepted inp s h]
  unfold tickBody tickFrameBody
  rcases inp.frame with _ | u
  · simp [drawObjUpdate]
  · by_cases hs : s.imageSavePlease <;>
    · rcases inp.detect with _ | markers
      · simp [drawObjUpdate, hs]
      · rcases hsel : selectBest markers s.pattId with _ | ⟨ki, m⟩ <;>
          simp [drawObjUpdate, hs, hsel]

example : updateAngle true 0 20 = 900 - 360 := by norm_num [updateAngle]

example : imageFileName 0 = "image-0000.jpg" := by decide

/-- C6: `mainLoop` reads the GLUT millisecond clock; when fewer than 10 ms
have elapsed since the previous accepted tick it returns without any work
(state and effects unchanged); an accepted tick records its clock reading in
`ms_prev`, so a tick arriving less than 10 ms after an accepted one is
gated — consecutive accepted tick times differ by at least 10 ms. -/
theorem C6_rate_gate (inp inp2 : TickInput) (s : GState) :
    (inp.ms - s.msPrev < 10 → tick inp s = (s, noEffects)) ∧
    (10 ≤ inp.ms - s.msPrev → (tick inp s).1.msPrev = inp.ms) ∧
    (10 ≤ inp.ms - s.msPrev → inp2.ms - inp.ms < 10 →
      tick inp2 (tick inp s).1 = ((tick inp s).1, noEffects)) := by
  refine ⟨fun h => tick_gated inp s h,
          fun h => tick_msPrev_of_accepted inp s h,
          fun h h2 => ?_⟩
  apply tick_gated
  rw [tick_msPrev_of_accepted inp s h]
  exact h2

/-- Witness for C6 at concrete inputs: a tick at 5 ms against `ms_prev = 0`
is gated; a tick at 1000 ms is accepted and records 1000; a following tick
at 1005 ms is gated. -/
theorem C6_rate_gate_witness :
    tick inGated gInit = (gInit, noEffects) ∧
    (tick inTwoHyp gInit).1.msPrev = 1000 ∧
    tick inGated2 (tick inTwoHyp gInit).1 = ((tick inTwoHyp gInit).1, noEffects) := by
  have h := C6_rate_gate inTwoHyp inGated2 gInit
  have hg := (C6_rate_gate inGated inGated2 gInit).1 (by decide)
  exact ⟨hg, h.2.1 (by decide), h.2.2 (by decide) (by decide)⟩

/-- C1: on an accepted tick with a frame and a successful detector run, if
some hypothesis matches the registered identity `gPatt_id` then the loop
selects a matching hypothesis whose confidence is maximal — and strictly
above every earlier matching hypothesis, so ties go to the first in the
detector's iteration order — invokes the pose solver on it and sets
`gPatt_found = TRUE`; if no hypothesis matches, it sets
`gPatt_found = FALSE` and the solver is not invoked. -/
theorem C1_selection (inp : TickInput) (s : GState) (markers : List MarkerInfo)
    (hacc : 10 ≤ inp.ms - s.msPrev) (hf : inp.frame = some ())
    (hd : inp.detect = some markers) :
    ((∃ m ∈ markers, m.id = s.pattId) →
      ∃ k m, selectBest markers s.pattId = some (k, m) ∧
        markers[k]? = some m ∧ m.id = s.pattId ∧
        (∀ (d : Nat) (md : MarkerInfo), markers[d]? = some md →
          md.id = s.pattId → md.cf ≤ m.cf) ∧
        (∀ (d : Nat) (md : MarkerInfo), d < k → markers[d]? = some md →
          md.id = s.pattId → md.cf < m.cf) ∧
        (tick inp s).2.poseSolved = some (m, gPatt_width) ∧
        (tick inp s).1.pattFound = true) ∧
    ((∀ m ∈ markers, m.id ≠ s.pattId) →
      (tick inp s).1.pattFound = false ∧ (tick inp s).2.poseSolved = none) := by
  constructor
  · intro hex
    rcases hsel : selectBest markers s.pattId with _ | ⟨k, m⟩
    · exfalso
      obtain ⟨m, hm, hid⟩ := hex
      exact ((selectBest_spec s.pattId markers).1.mp hsel) m hm hid
    · obtain ⟨hk, hid, hle, hlt⟩ :=
        (selectBest_spec s.pattId markers).2 (k, m) hsel
      refine ⟨k, m, rfl, hk, hid, hle, hlt, ?_, ?_⟩ <;>
      · rw [tick_accepted inp s hacc]
        unfold tickBody tickFrameBody
        by_cases hs : s.imageSavePlease <;>
          simp [hf, hd, hs, hsel, drawObjUpdate, noEffects]
  · intro hnone
    have hsel : selectBest markers s.pattId = none :=
      (selectBest_spec s.pattId markers).1.mpr hnone
    constructor <;>
    · rw [tick_accepted inp s hacc]
      unfold tickBody tickFrameBody
      by_cases hs : s.imageSavePlease <;>
        simp [hf, hd, hs, hsel, drawObjUpdate, noEffects]

/-- Witness for C1 on the boundary scenario: two hypotheses of identity 0
with confidences 0.4 and 0.7 — the 0.7 one is selected, the solver is
invoked on it, and `gPatt_found` is set. -/
theorem C1_selection_witness :
    ∃ k m,
      selectBest [MarkerInfo.mk 0 (2/5), MarkerInfo.mk 0 (7/10)] gInit.pattId =
        some (k, m) ∧
      [MarkerInfo.mk 0 (2/5), MarkerInfo.mk 0 (7/10)][k]? = some m ∧
      m.id = gInit.pattId ∧
      (∀ (d : Nat) (md : MarkerInfo),
        [MarkerInfo.mk 0 (2/5), MarkerInfo.mk 0 (7/10)][d]? = some md →
        md.id = gInit.pattId → md.cf ≤ m.cf) ∧
      (∀ (d : Nat) (md : MarkerInfo), d < k →
        [MarkerInfo.mk 0 (2/5), MarkerInfo.mk 0 (7/10)][d]? = some md →
        md.id = gInit.pattId → md.cf < m.cf) ∧
      (tick inTwoHyp gInit).2.poseSolved = some (m, gPatt_width) ∧
      (tick inTwoHyp gInit).1.pattFound = true := by
  exact (C1_selection inTwoHyp gInit
      [MarkerInfo.mk 0 (2/5), MarkerInfo.mk 0 (7/10)]
      (by decide) rfl rfl).1
    ⟨MarkerInfo.mk 0 (7/10), by simp, rfl⟩

/-- C2 counterexample: with one matching hypothesis and a pose solver
reporting residual 1000000 the tick still sets `gPatt_found = TRUE` — the
claim that a bad residual degrades to `found = false` is false: `mainLoop`
assigns `err` (line 444) and never reads it. -/
theorem C2_residual_counterexample :
    (inBadResidual.solve (MarkerInfo.mk 0 1) gPatt_width).2 = 1000000 ∧
    (tick inBadResidual gInit).1.pattFound = true := by
  constructor
  · norm_num [inBadResidual, solveBad]
  · rw [tick_accepted inBadResidual gInit (by decide)]
    unfold tickBody tickFrameBody
    norm_num [inBadResidual, gInit, drawObjUpdate, updateAngle,
      selectBest, selectFrom, selStep]

/-- C2 amended: the reprojection residual returned by the pose solver is
ignored.  On an accepted tick with a frame, a successful detection and a
selected hypothesis, the tick stores the solver's transform and sets
`gPatt_found = TRUE` whatever the residual; `gPatt_found = FALSE` occurs
only when no hypothesis matches. -/
theorem C2_residual_ignored (inp : TickInput) (s : GState)
    (markers : List MarkerInfo) (k : Nat) (m : MarkerInfo)
    (hacc : 10 ≤ inp.ms - s.msPrev) (hf : inp.frame = some ())
    (hd : inp.detect = some markers)
    (hsel : selectBest markers s.pattId = some (k, m)) :
    (tick inp s).1.pattFound = true ∧
    (tick inp s).1.pattTrans = (inp.solve m gPatt_width).1 := by
  constructor <;>
  · rw [tick_accepted inp s hacc]
    unfold tickBody tickFrameBody
    by_cases hs : s.imageSavePlease <;>
      simp [hf, hd, hs, hsel, drawObjUpdate]

/-- Witness for C2 amended: the bad-residual run stores the transform and
sets `gPatt_found`. -/
theorem C2_residual_ignored_witness :
    (tick inBadResidual gInit).1.pattFound = true ∧
    (tick inBadResidual gInit).1.pattTrans =
      (inBadResidual.solve (MarkerInfo.mk 0 1) gPatt_width).1 := by
  exact C2_residual_ignored inBadResidual gInit [MarkerInfo.mk 0 1] 0
    (MarkerInfo.mk 0 1) (by decide) rfl rfl
    (by norm_num [selectBest, selectFrom, selStep, gInit])

/-- C10: a tick that passes the rate gate but gets no frame still advances
the rotation angle (per `DrawObjUpdate`) and records the tick time, while
`gPatt_found`, the cached pose, the capture request, the capture counter and
the detection call count are unchanged and no redraw, save, solve or exit
happens. -/
theorem C10_no_frame (inp : TickInput) (s : GState)
    (hacc : 10 ≤ inp.ms - s.msPrev) (hf : inp.frame = none) :
    (tick inp s).1.rotateAngle =
      updateAngle s.drawRotate s.rotateAngle
        (((inp.ms - s.msPrev : Int) : ℚ) * (1/1000)) ∧
    (tick inp s).1.msPrev = inp.ms ∧
    (tick inp s).1.pattFound = s.pattFound ∧
    (tick inp s).1.pattTrans = s.pattTrans ∧
    (tick inp s).1.imageSavePlease = s.imageSavePlease ∧
    (tick inp s).1.imageNumber = s.imageNumber ∧
    (tick inp s).1.callCountMarkerDetect = s.callCountMarkerDetect ∧
    (tick inp s).2 = noEffects := by
  rw [tick_accepted inp s hacc]
  unfold tickBody
  simp [hf, drawObjUpdate]

/-- Witness for C10: a frameless tick at 1000 ms from the initial state
advances the angle to 45 and changes nothing else. -/
theorem C10_no_frame_witness :
    (tick inNoFrame gInit).1.rotateAngle =
      updateAngle gInit.drawRotate gInit.rotateAngle
        (((inNoFrame.ms - gInit.msPrev : Int) : ℚ) * (1/1000)) ∧
    (tick inNoFrame gInit).1.msPrev = inNoFrame.ms ∧
    (tick inNoFrame gInit).1.pattFound = gInit.pattFound ∧
    (tick inNoFrame gInit).1.pattTrans = gInit.pattTrans ∧
    (tick inNoFrame gInit).1.imageSavePlease = gInit.imageSavePlease ∧
    (tick inNoFrame gInit).1.imageNumber = gInit.imageNumber ∧
    (tick inNoFrame gInit).1.callCountMarkerDetect =
      gInit.callCountMarkerDetect ∧
    (tick inNoFrame gInit).2 = noEffects := by
  exact C10_no_frame inNoFrame gInit (by decide) rfl

/-- Across any single tick the capture counter never decreases. -/
theorem tick_imageNumber_mono (inp : TickInput) (s : GState) :
    s.imageNumber ≤ (tick inp s).1.imageNumber := by
  by_cases h : inp.ms - s.msPrev < 10
  · rw [tick_gated inp s h]
  · rw [tick_accepted inp s (by omega)]
    unfold tickBody tickFrameBody
    rcases inp.frame with _ | u
    · simp [drawObjUpdate]
    · by_cases hs : s.imageSavePlease <;>
      · rcases inp.detect with _ | markers
        · simp [drawObjUpdate, hs]
        · rcases hsel : selectBest markers s.pattId with _ | ⟨ki, m⟩ <;>
            simp [drawObjUpdate, hs, hsel] <;> omega

/-- C7: on an accepted tick with a frame and `gARTImageSavePlease` set, the
frame is saved as a JPEG at quality 75 under `image-NNNN.jpg` with NNNN the
zero-padded counter (starting at 0); the counter increments and the request
is cleared whether or not the save succeeds (the tick is general in
`saveOk`); the counter never decreases across any tick; and a save failure
is not fatal: detection still runs, the FPS counter increments and a redraw
is posted. -/
theorem C7_capture (inp : TickInput) (s : GState)
    (hacc : 10 ≤ inp.ms - s.msPrev) (hf : inp.frame = some ())
    (hreq : s.imageSavePlease = true) :
    (tick inp s).2.saved = some (imageFileName s.imageNumber, 75, inp.saveOk) ∧
    (tick inp s).1.imageNumber = s.imageNumber + 1 ∧
    (tick inp s).1.imageSavePlease = false ∧
    imageFileName 0 = "image-0000.jpg" ∧
    gInit.imageNumber = 0 ∧
    (∀ (inp2 : TickInput) (s2 : GState),
      s2.imageNumber ≤ (tick inp2 s2).1.imageNumber) ∧
    (∀ markers, inp.detect = some markers →
      (tick inp s).2.exited = none ∧
      (tick inp s).1.callCountMarkerDetect = s.callCountMarkerDetect + 1 ∧
      (tick inp s).2.redraw = true) := by
  refine ⟨?_, ?_, ?_, by decide, by decide,
    fun inp2 s2 => tick_imageNumber_mono inp2 s2, ?_⟩
  · rw [tick_accepted inp s hacc]
    unfold tickBody tickFrameBody
    rcases inp.detect with _ | markers
    · simp [hf, hreq, drawObjUpdate, noEffects, jpegQuality]
    · rcases hsel : selectBest markers s.pattId with _ | ⟨ki, m⟩ <;>
        simp [hf, hreq, drawObjUpdate, noEffects, jpegQuality, hsel]
  · rw [tick_accepted inp s hacc]
    unfold tickBody tickFrameBody
    rcases inp.detect with _ | markers
    · simp [hf, hreq, drawObjUpdate, noEffects]
    · rcases hsel : selectBest markers s.pattId with _ | ⟨ki, m⟩ <;>
        simp [hf, hreq, drawObjUpdate, noEffects, hsel]
  · rw [tick_accepted inp s hacc]
    unfold tickBody tickFrameBody
    rcases inp.detect with _ | markers
    · simp [hf, hreq, drawObjUpdate, noEffects]
    · rcases hsel : selectBest markers s.pattId with _ | ⟨ki, m⟩ <;>
        simp [hf, hreq, drawObjUpdate, noEffects, hsel]
  · intro markers hd
    refine ⟨?_, ?_, ?_⟩ <;>
    · rw [tick_accepted inp s hacc]
      unfold tickBody tickFrameBody
      rcases hsel : selectBest markers s.pattId with _ | ⟨ki, m⟩ <;>
        simp [hf, hd, hreq, drawObjUpdate, noEffects, hsel]

/-- Witness for C7: boundary scenario 5 — `s` pressed while the counter is
0; the next accepted tick saves `image-0000.jpg` at quality 75, the counter
becomes 1 and the request is cleared; detection runs and a redraw is
posted. -/
theorem C7_capture_witness :
    (tick inCapture gCap).2.saved = some ("image-0000.jpg", 75, true) ∧
    (tick inCapture gCap).1.imageNumber = 1 ∧
    (tick inCapture gCap).1.imageSavePlease = false ∧
    (tick inCapture gCap).2.exited = none ∧
    (tick inCapture gCap).1.callCountMarkerDetect = 1 ∧
    (tick inCapture gCap).2.redraw = true := by
  obtain ⟨h1, h2, h3, _, _, _, h7⟩ :=
    C7_capture inCapture gCap (by decide) rfl rfl
  obtain ⟨h8, h9, h10⟩ := h7 [] rfl
  exact ⟨h1.trans (by decide), h2.trans (by decide), h3,
    h8, h9.trans (by decide), h10⟩

/-- C5: the `-` key decrements and `+` / `=` increment the manual labeling
threshold by 5 with clamping to [0, 255]: from any threshold in [0, 255]
the result stays in [0, 255]; an increment from a threshold at most 250 adds
exactly 5 and a decrement from at least 5 subtracts exactly 5; pressing `+`
or `=` at 255, or `-` at 0, leaves the whole state unchanged; and from 253
three `+` presses end at 255. -/
theorem C5_threshold (s : GState) (h0 : 0 ≤ s.thresh) (h255 : s.thresh ≤ 255) :
    (0 ≤ (keyboard '+' s).thresh ∧ (keyboard '+' s).thresh ≤ 255) ∧
    (0 ≤ (keyboard '=' s).thresh ∧ (keyboard '=' s).thresh ≤ 255) ∧
    (0 ≤ (keyboard '-' s).thresh ∧ (keyboard '-' s).thresh ≤ 255) ∧
    (s.thresh ≤ 250 → (keyboard '+' s).thresh = s.thresh + 5) ∧
    (s.thresh ≤ 250 → (keyboard '=' s).thresh = s.thresh + 5) ∧
    (5 ≤ s.thresh → (keyboard '-' s).thresh = s.thresh - 5) ∧
    (s.thresh = 255 → keyboard '+' s = s) ∧
    (s.thresh = 255 → keyboard '=' s = s) ∧
    (s.thresh = 0 → keyboard '-' s = s) ∧
    (s.thresh = 253 →
      (keyboard '+' (keyboard '+' (keyboard '+' s))).thresh = 255) := by
  obtain ⟨f1, f2, f3, f4, f5, f6, f7, f8, f9, f10, f11, f12, f13, f14, f15,
    f16, f17⟩ := s
  simp only at h0 h255
  refine ⟨⟨?_, ?_⟩, ⟨?_, ?_⟩, ⟨?_, ?_⟩, ?_, ?_, ?_, ?_, ?_, ?_, ?_⟩ <;>
    first
      | (simp [keyboard]; omega)
      | (intro h; simp only at h; subst h; simp [keyboard])
      | (intro h; simp only at h; simp [keyboard]; omega)

/-- Witness for C5: from threshold 100 a `+` press yields 105 and bounds
hold; at 255 a `+` press changes nothing; at 0 a `-` press changes nothing;
from 253 three `+` presses yield 255. -/
theorem C5_threshold_witness :
    (keyboard '+' gInit).thresh = 105 ∧
    keyboard '+' gTh255 = gTh255 ∧
    keyboard '-' gTh0 = gTh0 ∧
    (keyboard '+' (keyboard '+' (keyboard '+' gTh253))).thresh = 255 := by
  have h1 := C5_threshold gInit (by decide) (by decide)
  have h2 := C5_threshold gTh255 (by decide) (by decide)
  have h3 := C5_threshold gTh0 (by decide) (by decide)
  have h4 := C5_threshold gTh253 (by decide) (by decide)
  refine ⟨?_, h2.2.2.2.2.2.2.1 (by decide), h3.2.2.2.2.2.2.2.2.1 (by decide),
    h4.2.2.2.2.2.2.2.2.2 (by decide)⟩
  have := h1.2.2.2.1 (by decide)
  rw [this]
  decide

/-- C8: the help toggle ('?' / '/') on its reachable values 0 and 1, the
mode-panel toggle ('m') and the rotation toggle (space) each return the
whole state unchanged when pressed twice; the threshold-mode ring ('a') has
period 4 and the image-processing ring ('x') period 2 on the whole state;
pressing 'c' three times returns the draw-mode setting — as `printMode`
displays it — to its original value from every state, and returns the
underlying (arglDrawMode, arglTexmapMode) pair itself on every state
satisfying "drawMode = DRAW_PIXELS → texmapMode = HALF_IMAGE", an invariant
established by every 'c' press. -/
theorem C8_toggles (s : GState) :
    ((s.showHelp = 0 ∨ s.showHelp = 1) → keyboard '?' (keyboard '?' s) = s) ∧
    ((s.showHelp = 0 ∨ s.showHelp = 1) → keyboard '/' (keyboard '/' s) = s) ∧
    keyboard 'm' (keyboard 'm' s) = s ∧
    keyboard (Char.ofNat 32) (keyboard (Char.ofNat 32) s) = s ∧
    keyboard 'a' (keyboard 'a' (keyboard 'a' (keyboard 'a' s))) = s ∧
    keyboard 'x' (keyboard 'x' s) = s ∧
    effDrawMode (keyboard 'c' (keyboard 'c' (keyboard 'c' s))) =
      effDrawMode s ∧
    ((s.drawMode = DrawMode.drawPixels → s.texmapMode = TexmapMode.halfImage) →
      (keyboard 'c' (keyboard 'c' (keyboard 'c' s))).drawMode = s.drawMode ∧
      (keyboard 'c' (keyboard 'c' (keyboard 'c' s))).texmapMode =
        s.texmapMode) ∧
    ((keyboard 'c' s).drawMode = DrawMode.drawPixels →
      (keyboard 'c' s).texmapMode = TexmapMode.halfImage) := by
  obtain ⟨f1, f2, f3, f4, f5, f6, f7, f8, f9, f10, f11, f12, f13, f14, f15,
    f16, f17⟩ := s
  refine ⟨?_, ?_, ?_, ?_, ?_, ?_, ?_, ?_, ?_⟩
  · intro h
    simp only at h
    rcases h with h | h <;> subst h <;> simp [keyboard]
  · intro h
    simp only at h
    rcases h with h | h <;> subst h <;> simp [keyboard]
  · simp [keyboard]
  · simp [keyboard]
  · cases f13 <;> simp [keyboard]
  · cases f14 <;> simp [keyboard]
  · cases f16 <;> cases f17 <;> simp [keyboard, effDrawMode]
  · intro h
    simp only at h
    cases f16 <;> cases f17 <;> simp [keyboard]
    exact (Option.some_ne_none () (by simpa using h rfl)).elim
  · cases f16 <;> cases f17 <;> simp [keyboard]

/-- Witness for C8 at the initial state (help = 1, texture-mapping /
full-image draw mode). -/
theorem C8_toggles_witness :
    keyboard '?' (keyboard '?' gInit) = gInit ∧
    keyboard '/' (keyboard '/' gInit) = gInit ∧
    keyboard 'm' (keyboard 'm' gInit) = gInit ∧
    keyboard (Char.ofNat 32) (keyboard (Char.ofNat 32) gInit) = gInit ∧
    keyboard 'a' (keyboard 'a' (keyboard 'a' (keyboard 'a' gInit))) = gInit ∧
    keyboard 'x' (keyboard 'x' gInit) = gInit ∧
    effDrawMode (keyboard 'c' (keyboard 'c' (keyboard 'c' gInit))) =
      effDrawMode gInit ∧
    (keyboard 'c' (keyboard 'c' (keyboard 'c' gInit))).drawMode =
      gInit.drawMode ∧
    (keyboard 'c' (keyboard 'c' (keyboard 'c' gInit))).texmapMode =
      gInit.texmapMode := by
  have h := C8_toggles gInit
  obtain ⟨h1, h2, h3, h4, h5, h6, h7, h8, _⟩ := h
  obtain ⟨h8a, h8b⟩ := h8 (by decide)
  exact ⟨h1 (by decide), h2 (by decide), h3, h4, h5, h6, h7, h8a, h8b⟩

/-- After an accepted tick the rotation angle is exactly `DrawObjUpdate`'s
result for the elapsed time, whatever later branch ran. -/
theorem tick_rotateAngle_of_accepted (inp : TickInput) (s : GState)
    (hacc : 10 ≤ inp.ms - s.msPrev) :
    (tick inp s).1.rotateAngle =
      updateAngle s.drawRotate s.rotateAngle
        (((inp.ms - s.msPrev : Int) : ℚ) * (1/1000)) := by
  rw [tick_accepted inp s hacc]
  unfold tickBody tickFrameBody
  rcases inp.frame with _ | u
  · simp [drawObjUpdate]
  · by_cases hs : s.imageSavePlease <;>
    · rcases inp.detect with _ | markers
      · simp [drawObjUpdate, hs]
      · rcases hsel : selectBest markers s.pattId with _ | ⟨ki, m⟩ <;>
          simp [drawObjUpdate, hs, hsel]

/-- C4 counterexample: from the source's initial state (angle 0, rotation
enabled) an accepted tick 20 s after the previous one (clock 20000 ms, as
after the window was hidden) leaves `gDrawRotateAngle` at 540: the single
`-= 360` does not reduce the angle below 360, so `0 ≤ angle < 360` fails
for that value of dt. -/
theorem C4_rotation_counterexample :
    (tick inLate gInit).1.rotateAngle = 540 ∧
    ¬ ((tick inLate gInit).1.rotateAngle < 360) := by
  have h : (tick inLate gInit).1.rotateAngle = 540 := by
    rw [tick_rotateAngle_of_accepted inLate gInit (by decide)]
    norm_num [inLate, gInit, updateAngle]
  rw [h]
  norm_num

/-- C4 amended: when rotation is enabled an accepted tick advances the angle
by `45 · dt` (so a tick exactly 1.000 s after the previous one adds 45°),
subtracting 360 at most once and only when the result strictly exceeds 360;
the bound `0 ≤ angle ≤ 360` — 360 included, so the claimed strict `< 360`
does not hold — is preserved provided `45 · dt ≤ 360` (dt ≤ 8 s), and the
angle is unchanged when rotation is disabled. -/
theorem C4_rotation (s : GState) (dt : ℚ) :
    (s.drawRotate = true → s.rotateAngle + dt * 45 ≤ 360 →
      (drawObjUpdate dt s).rotateAngle = s.rotateAngle + dt * 45) ∧
    (s.drawRotate = true → 0 ≤ s.rotateAngle → s.rotateAngle ≤ 360 →
      0 ≤ dt → dt * 45 ≤ 360 →
      0 ≤ (drawObjUpdate dt s).rotateAngle ∧
        (drawObjUpdate dt s).rotateAngle ≤ 360) ∧
    (s.drawRotate = false →
      (drawObjUpdate dt s).rotateAngle = s.rotateAngle) ∧
    (∀ inp : TickInput, inp.ms - s.msPrev = 1000 → s.drawRotate = true →
      s.rotateAngle + 45 ≤ 360 →
      (tick inp s).1.rotateAngle = s.rotateAngle + 45) := by
  refine ⟨?_, ?_, ?_, ?_⟩
  · intro h1 h2
    simp only [drawObjUpdate, updateAngle, h1, if_true]
    rw [if_neg (by linarith)]
  · intro h1 ha hb hc hd
    simp only [drawObjUpdate, updateAngle, h1, if_true]
    split_ifs with h <;> constructor <;> linarith
  · intro h1
    simp [drawObjUpdate, updateAngle, h1]
  · intro inp h h1 h2
    rw [tick_rotateAngle_of_accepted inp s (by omega), h]
    have hc : ((1000 : Int) : ℚ) * (1/1000) = 1 := by norm_num
    rw [hc]
    simp only [updateAngle, h1, if_true]
    rw [if_neg (by linarith)]
    ring

/-- Witness for C4 amended: a frameless tick at 1000 ms from the initial
state advances the angle from 0 to 45, within [0, 360]; with rotation
disabled the angle stays 0. -/
theorem C4_rotation_witness :
    (drawObjUpdate 1 gInit).rotateAngle = gInit.rotateAngle + 1 * 45 ∧
    (0 ≤ (drawObjUpdate 1 gInit).rotateAngle ∧
      (drawObjUpdate 1 gInit).rotateAngle ≤ 360) ∧
    (drawObjUpdate 1 gNoRot).rotateAngle = gNoRot.rotateAngle ∧
    (tick inNoFrame gInit).1.rotateAngle = gInit.rotateAngle + 45 := by
  have h1 := C4_rotation gInit 1
  have h2 := C4_rotation gNoRot 1
  exact ⟨h1.1 (by decide) (by norm_num [gInit]),
    h1.2.1 (by decide) (by norm_num [gInit]) (by norm_num [gInit])
      (by norm_num) (by norm_num),
    h2.2.2.1 (by decide),
    h1.2.2.2 inNoFrame (by decide) (by decide) (by norm_num [gInit])⟩

/-- C3 counterexample: the mesh scale argument is 1.5 × 40 = 60, not
1.5 × 80 = 120, and the Z translation in `DrawObj` is 40 / 2 = 20, not
80 / 2 = 40: the code's drawing constant `markerSize` is 40 while only the
pose solver receives the 80-unit edge length. -/
theorem C3_constants_counterexample :
    glmScaleArg = 60 ∧ ¬ glmScaleArg = 3/2 * 80 ∧
    markerSize / 2 = 20 ∧ ¬ markerSize / 2 = 80 / 2 := by
  norm_num [glmScaleArg, markerSize]

/-- C3 amended: two distinct size constants coexist: the pose solver's edge
length `gPatt_width = 80` and the drawing constant `markerSize = 40`.  The
mesh is uniformly scaled by `1.5 × markerSize = 60`, and `DrawObj` pushes
the matrix, rotates by `rotateAngleDeg` about Z, translates by
`markerSize / 2 = +20` along Z, draws the mesh, and pops — and runs exactly
when `gPatt_found` is set. -/
theorem C3_constants (angle : ℚ) :
    gPatt_width = 80 ∧ markerSize = 40 ∧ glmScaleArg = 60 ∧
    drawObjOps angle = [GLOp.pushMatrix, GLOp.rotatef angle 0 0 1,
      GLOp.translatef 0 0 20, GLOp.drawMesh, GLOp.popMatrix] ∧
    displayMeshOps true angle = drawObjOps angle ∧
    displayMeshOps false angle = [] := by
  norm_num [gPatt_width, markerSize, glmScaleArg, drawObjOps, displayMeshOps]

/-- C9 counterexample: on a tick-fatal detector error (`arDetectMarker < 0`)
`mainLoop` calls `exit(-1)` directly (line 429) without invoking
`cleanup()`: teardown is not attempted on this failure path, contrary to
the claim. -/
theorem C9_teardown_counterexample :
    (tick inDetectFail gInit).2.exited = some (-1) ∧
    (tick inDetectFail gInit).2.cleanupCalled = false := by
  constructor <;>
  · rw [tick_accepted inDetectFail gInit (by decide)]
    unfold tickBody tickFrameBody
    norm_num [inDetectFail, gInit, drawObjUpdate, noEffects]

/-- C9 amended: a tick-fatal detector internal error terminates the program
with exit code -1 (non-zero) and teardown is NOT attempted on this path
(`exit(-1)` is called without `cleanup()`); the teardown sequence that
`cleanup()` performs on the paths that do call it is: destroy Renderer,
detach PatternTable, delete PatternTable, stop capture, destroy Pose
Solver, destroy DetectorState, destroy intrinsics, close Frame Source,
delete Mesh if present. -/
theorem C9_detector_fatal (inp : TickInput) (s : GState)
    (hacc : 10 ≤ inp.ms - s.msPrev) (hf : inp.frame = some ())
    (hd : inp.detect = none) :
    (tick inp s).2.exited = some (-1) ∧ (-1 : Int) ≠ 0 ∧
    (tick inp s).2.cleanupCalled = false ∧
    cleanupSequence true =
      [TeardownStep.destroyRenderer, TeardownStep.detachPatternTable,
       TeardownStep.deletePatternTable, TeardownStep.stopCapture,
       TeardownStep.destroyPoseSolver, TeardownStep.destroyDetectorState,
       TeardownStep.destroyIntrinsics, TeardownStep.closeFrameSource,
       TeardownStep.deleteMesh] ∧
    cleanupSequence false =
      [TeardownStep.destroyRenderer, TeardownStep.detachPatternTable,
       TeardownStep.deletePatternTable, TeardownStep.stopCapture,
       TeardownStep.destroyPoseSolver, TeardownStep.destroyDetectorState,
       TeardownStep.destroyIntrinsics, TeardownStep.closeFrameSource] := by
  refine ⟨?_, by decide, ?_, by decide, by decide⟩ <;>
  · rw [tick_accepted inp s hacc]
    unfold tickBody tickFrameBody
    by_cases hs : s.imageSavePlease <;>
      simp [hf, hd, hs, drawObjUpdate, noEffects]

/-- Witness for C9 amended at a concrete detector-failure tick. -/
theorem C9_detector_fatal_witness :
    (tick inDetectFail gCap).2.exited = some (-1) ∧
    (tick inDetectFail gCap).2.cleanupCalled = false := by
  have h := C9_detector_fatal inDetectFail gCap (by decide) rfl rfl
  exact ⟨h.1, h.2.2.1⟩
